import Mathlib

/-!
Verification of the OpenHRV telemetry routing code.

The embedding below follows the Python sources:
  * `logger.py` — `RedisLogger.publish` (the External Publisher sink);
  * `view.py` (PySide2 variant) — `View.closeEvent`, `View.connect_sensor`;
  * `openhrv/view.py` (PySide6 variant) — `View.closeEvent`,
    `View.connect_sensor`, `View.disconnect_sensor`, `View.get_filepath`,
    the HRV-target slider wiring.

Repository modules that are referenced but whose files are not part of the
sources handed to us (`model.py`, `utils.py`, `sensor.py`, `config.py`)
are modelled from the specification; each such definition carries a doc
comment starting with `Modelled from the spec:`.
-/

namespace OpenHRV

/-! ## Python value payloads

The model signals carry `(name, value)` tuples whose value is a scalar
(int, float, str) or a sequence (Python `list` or `np.ndarray`; the
`isinstance(val, (list, np.ndarray))` check in `logger.py` treats both
alike). -/

/-- A scalar Python value as it appears in model updates: an int
(including `np.int32`, which `publish` converts with `int(val)`,
a value-preserving conversion), a float (modelled as a rational), or a
string. -/
inductive Scalar where
  | int (n : ℤ)
  | float (q : ℚ)
  | str (s : String)
  deriving DecidableEq, Repr

/-- A Python payload value: either a scalar or a sequence (list / ndarray). -/
inductive PyVal where
  | scalar (v : Scalar)
  | seq (l : List Scalar)
  deriving DecidableEq, Repr

/-- Python exceptions that our embedded handlers can raise. -/
inductive PyExc where
  | indexError
  deriving DecidableEq, Repr

/-! ## External Publisher (`RedisLogger.publish`, `logger.py` lines 22-31)

```python
def publish(self, value):
    key, val = value
    if isinstance(val, (list, np.ndarray)):
        val = val[-1]
    if isinstance(val, np.int32):
        val = int(val)
    try:
        self.redis.publish(key, val)
    except redis.exceptions.ConnectionError as e:
        print(e)
```

The redis transport is an external collaborator: each call either succeeds
or raises `redis.exceptions.ConnectionError`.  We model one handler
invocation as a function of the update and of whether the transport call
would raise a connection error, returning `Except PyExc` (an uncaught
Python exception escapes as `.error`). -/

/-- The result of one successful (non-raising) run of the publish handler. -/
structure PubResult where
  /-- The `(channel, value)` pair that reached the redis transport, if the
  call succeeded. -/
  published : Option (String × Scalar)
  /-- Connection-error messages printed by the `except` branch. -/
  logged : List String
  /-- Number of calls made to the redis transport. -/
  attempts : ℕ
  deriving DecidableEq, Repr

/-- Reduction step: `val[-1]` applied after the `isinstance` check: sequences are reduced
to their last element (raising `IndexError` when empty, since `val[-1]`
on an empty list raises), scalars pass through unchanged.  This happens
before the `try` block. -/
def reduceVal : PyVal → Except PyExc Scalar
  | .scalar v => .ok v
  | .seq l =>
    match l.getLast? with
    | none => .error .indexError
    | some v => .ok v

/-- The handler `RedisLogger.publish` on one `(key, val)` update.  `connFail` says
whether the redis transport raises `ConnectionError` on this call; the
`except` clause catches exactly that error, prints it, and drops the
update. -/
def RedisLogger.publish (connFail : Bool) (kv : String × PyVal) :
    Except PyExc PubResult := do
  let key := kv.1
  let v ← reduceVal kv.2
  if connFail then
    return { published := none, logged := ["ConnectionError"], attempts := 1 }
  else
    return { published := some (key, v), logged := [], attempts := 1 }

/-- A sequence of model updates delivered to the sink, each paired with
the transport behaviour at the time of its delivery.  Qt delivers every
queued signal to the slot independently: an exception escaping one slot
invocation does not cancel the delivery of the next, so the runs are
independent. -/
def RedisLogger.publishSeq (l : List (Bool × (String × PyVal))) :
    List (Except PyExc PubResult) :=
  l.map fun p => RedisLogger.publish p.1 p.2

end OpenHRV

open OpenHRV

/-- Claim C9: for every update whose payload is an empty sequence, the
publish handler raises an uncaught `IndexError`, whatever the transport
would have done: the `val[-1]` reduction happens before the `try` block,
which guards only the network publish call against connection errors. -/
theorem publish_empty_seq_raises_indexError (connFail : Bool) (key : String) :
    RedisLogger.publish connFail (key, PyVal.seq []) = .error .indexError := by
  cases connFail <;> rfl

/-- Claim C2: for every sequence of updates (whose payloads are reducible,
i.e. no empty sequences), every update is attempted; each run returns
without an escaping exception; a connection error on one update is
logged, that update is dropped after exactly one transport attempt (no
retry), and the updates after it are still attempted and — when the
transport is back — published. -/
theorem publish_connErrors_logged_dropped_nonfatal
    (l : List (Bool × (String × PyVal)))
    (hsafe : ∀ p ∈ l, ∀ s, p.2.2 = PyVal.seq s → s ≠ []) :
    (RedisLogger.publishSeq l).length = l.length ∧
    ∀ p ∈ l, ∃ r : PubResult,
      RedisLogger.publish p.1 p.2 = .ok r ∧
      r.attempts = 1 ∧
      (p.1 = true → r.published = none ∧ r.logged ≠ []) ∧
      (p.1 = false → ∃ v, r.published = some (p.2.1, v) ∧ r.logged = []) := by
  constructor
  · simp [RedisLogger.publishSeq]
  · intro p hp
    obtain ⟨fail, key, val⟩ := p
    have hred : ∃ v, reduceVal val = .ok v := by
      cases val with
      | scalar v => exact ⟨v, rfl⟩
      | seq s =>
        have hne : s ≠ [] := hsafe _ hp s rfl
        obtain ⟨v, hv⟩ := Option.isSome_iff_exists.mp (List.getLast?_isSome.mpr hne)
        exact ⟨v, by simp [reduceVal, hv]⟩
    obtain ⟨v, hv⟩ := hred
    cases fail with
    | true =>
      refine ⟨{ published := none, logged := ["ConnectionError"], attempts := 1 }, ?_, rfl, ?_, ?_⟩
      · simp [RedisLogger.publish, hv]
      · intro _; exact ⟨rfl, by simp⟩
      · intro h; cases h
    | false =>
      refine ⟨{ published := some (key, v), logged := [], attempts := 1 }, ?_, rfl, ?_, ?_⟩
      · simp [RedisLogger.publish, hv]
      · intro h; cases h
      · intro _; exact ⟨v, rfl, rfl⟩

/-- Witness for C2: a concrete run with three updates — the first fails
with a connection error, the others succeed. -/
theorem publish_connErrors_witness :
    (∀ p ∈ [(true, ("ibis", PyVal.seq [Scalar.int 800, Scalar.int 820])),
            (false, ("hrv_target", PyVal.scalar (Scalar.int 250))),
            (false, ("ibis", PyVal.seq [Scalar.int 790]))],
       ∀ s, p.2.2 = PyVal.seq s → s ≠ []) ∧
    ((RedisLogger.publishSeq
        [(true, ("ibis", PyVal.seq [Scalar.int 800, Scalar.int 820])),
         (false, ("hrv_target", PyVal.scalar (Scalar.int 250))),
         (false, ("ibis", PyVal.seq [Scalar.int 790]))]).length = 3 ∧
     ∀ p ∈ [(true, ("ibis", PyVal.seq [Scalar.int 800, Scalar.int 820])),
            (false, ("hrv_target", PyVal.scalar (Scalar.int 250))),
            (false, ("ibis", PyVal.seq [Scalar.int 790]))], ∃ r : PubResult,
        RedisLogger.publish p.1 p.2 = .ok r ∧
        r.attempts = 1 ∧
        (p.1 = true → r.published = none ∧ r.logged ≠ []) ∧
        (p.1 = false → ∃ v, r.published = some (p.2.1, v) ∧ r.logged = [])) := by
  refine ⟨?_, publish_connErrors_logged_dropped_nonfatal _ ?_⟩ <;>
    · intro p hp s hs
      fin_cases hp <;> simp_all <;> simp [← hs]

/-- Claim C4: for every update, the push to the external channel uses the
update's field name as the channel; a sequence value is reduced to its
last element, a scalar value is published unchanged. -/
theorem publish_channel_and_latest_scalar (key : String) (val : PyVal) :
    (∀ v : Scalar, val = PyVal.scalar v →
      RedisLogger.publish false (key, val) =
        .ok { published := some (key, v), logged := [], attempts := 1 }) ∧
    (∀ (l : List Scalar) (v : Scalar), val = PyVal.seq l → l.getLast? = some v →
      RedisLogger.publish false (key, val) =
        .ok { published := some (key, v), logged := [], attempts := 1 }) := by
  constructor
  · rintro v rfl
    rfl
  · rintro l v rfl hlast
    simp [RedisLogger.publish, reduceVal, hlast]

/-- Witness for C4: a scalar update and a two-element list update,
evaluated concretely. -/
theorem publish_channel_and_latest_scalar_witness :
    RedisLogger.publish false ("hrv_target", PyVal.scalar (Scalar.int 250)) =
      .ok { published := some ("hrv_target", Scalar.int 250), logged := [],
            attempts := 1 } ∧
    RedisLogger.publish false ("ibis", PyVal.seq [Scalar.int 800, Scalar.int 820]) =
      .ok { published := some ("ibis", Scalar.int 820), logged := [],
            attempts := 1 } := by
  exact ⟨(publish_channel_and_latest_scalar ("hrv_target") _).1 _ rfl,
         (publish_channel_and_latest_scalar ("ibis") _).2 [Scalar.int 800, Scalar.int 820]
           (Scalar.int 820) rfl rfl⟩

namespace OpenHRV

/-! ## Shutdown ordering (`view.py` lines 217-231, `openhrv/view.py` 247-254)

`View.closeEvent` in the PySide2 variant:

```python
self.scanner_thread.quit()
self.scanner_thread.wait()
self.sensor_thread.quit()    # quit() only works if the thread has a running event loop...
asyncio.run_coroutine_threadsafe(self.sensor.stop(), self.sensor.loop)
self.sensor_thread.wait()
self.redis_publisher_thread.quit()
self.redis_publisher_thread.wait()
self.redis_logger_thread.quit()
self.redis_logger_thread.wait()
```

We record the sequence of calls the handler makes as a trace of abstract
shutdown operations, one per statement, in program order. -/

/-- One statement of a `closeEvent` body. -/
inductive ShutdownOp where
  /-- Call `scanner_thread.quit()`. -/
  | quitScanner
  /-- Call `scanner_thread.wait()`. -/
  | waitScanner
  /-- Call `sensor_thread.quit()`. -/
  | quitSensor
  /-- Call `asyncio.run_coroutine_threadsafe(self.sensor.stop(), self.sensor.loop)`:
  asking the cooperative loop, through its own scheduler, to cancel its
  current operation and disconnect. -/
  | scheduleSensorStopOnLoop
  /-- Call `sensor_thread.wait()`. -/
  | waitSensor
  /-- Call `redis_publisher_thread.quit()`. -/
  | quitPublisher
  /-- Call `redis_publisher_thread.wait()`. -/
  | waitPublisher
  /-- Call `redis_logger_thread.quit()`. -/
  | quitLogger
  /-- Call `redis_logger_thread.wait()`. -/
  | waitLogger
  /-- Call `sensor.disconnect_client()` directly (PySide6 variant). -/
  | disconnectClientDirect
  deriving DecidableEq, Repr

/-- The statement trace of `View.closeEvent` in `view.py` (PySide2
variant), lines 220-231, in program order. -/
def closeEventTrace : List ShutdownOp :=
  [.quitScanner, .waitScanner,
   .quitSensor, .scheduleSensorStopOnLoop, .waitSensor,
   .quitPublisher, .waitPublisher,
   .quitLogger, .waitLogger]

/-- The statement trace of `View.closeEvent` in `openhrv/view.py`
(PySide6 variant), lines 251-254: there is no sensor thread at all in
this variant; the sensor is disconnected by a direct call. -/
def closeEventTracePySide6 : List ShutdownOp :=
  [.disconnectClientDirect, .quitLogger, .waitLogger]

/-- The order claimed by the spec for the sensor worker: the in-loop
cancellation is scheduled strictly before the owning context is told to
quit, and the quit comes before the join. -/
def specShutdownOrder (t : List ShutdownOp) : Prop :=
  ShutdownOp.scheduleSensorStopOnLoop ∈ t ∧
  ShutdownOp.quitSensor ∈ t ∧
  ShutdownOp.waitSensor ∈ t ∧
  t.indexOf ShutdownOp.scheduleSensorStopOnLoop < t.indexOf ShutdownOp.quitSensor ∧
  t.indexOf ShutdownOp.quitSensor < t.indexOf ShutdownOp.waitSensor

end OpenHRV

/-- Claim C3, counterexample: in the actual `closeEvent` the sensor thread
is told to quit *before* the loop is asked (through
`run_coroutine_threadsafe`) to stop: the claimed order
(schedule-stop strictly before quit) does not hold on the trace. -/
theorem closeEvent_claimed_order_false : ¬ specShutdownOrder closeEventTrace := by
  rw [specShutdownOrder]
  decide

/-- Claim C3, amended: during shutdown the sensor worker context is first
told to quit (which takes effect only once its event loop stops), then
the cooperative loop inside it is asked through its own scheduling
mechanism to cancel its current operation and disconnect, and only after
that is the context joined.  (The PySide6 variant has no sensor worker
context: the sensor is disconnected by a direct call before the logger
thread is quit and joined.) -/
theorem closeEvent_actual_order :
    ShutdownOp.quitSensor ∈ closeEventTrace ∧
    ShutdownOp.scheduleSensorStopOnLoop ∈ closeEventTrace ∧
    ShutdownOp.waitSensor ∈ closeEventTrace ∧
    closeEventTrace.indexOf ShutdownOp.quitSensor <
      closeEventTrace.indexOf ShutdownOp.scheduleSensorStopOnLoop ∧
    closeEventTrace.indexOf ShutdownOp.scheduleSensorStopOnLoop <
      closeEventTrace.indexOf ShutdownOp.waitSensor ∧
    closeEventTracePySide6.indexOf ShutdownOp.disconnectClientDirect <
      closeEventTracePySide6.indexOf ShutdownOp.quitLogger ∧
    closeEventTracePySide6.indexOf ShutdownOp.quitLogger <
      closeEventTracePySide6.indexOf ShutdownOp.waitLogger := by
  refine ⟨?_, ?_, ?_, ?_, ?_, ?_, ?_⟩ <;> decide

namespace OpenHRV

/-! ## Sensor connection (`openhrv/view.py` lines 273-284, `view.py` 233-239)

```python
def connect_sensor(self):
    if not self.address_menu.currentText():
        return
    # discard device name
    address: str = self.address_menu.currentText().split(",")[1].strip()
    if not valid_address(address):
        print(f"Invalid sensor address: {address}.")
        return
    sensor: list[QBluetoothDeviceInfo] = [
        s for s in self.model.sensors if get_sensor_address(s) == address
    ]
    self.sensor.connect_client(*sensor)
```

and the PySide2 variant:

```python
def connect_sensor(self):
    mac = self.mac_menu.currentText()
    if not valid_mac(mac):
        print("Invalid MAC.")
        return
    asyncio.run_coroutine_threadsafe(self.sensor.reconnect_internal(mac),
                                     self.sensor.loop)
```
-/

/-- True on hexadecimal digits, both cases. -/
def isHexDigit (c : Char) : Bool :=
  c.isDigit || ('a' ≤ c && c ≤ 'f') || ('A' ≤ c && c ≤ 'F')

/-- Modelled from the spec: `valid_address` (from `openhrv/utils.py`,
not among the given sources) — "identifier format validated as a colon-
or hyphen-separated 6-group hexadecimal hardware address
(case-insensitive)".  Six groups of two hexadecimal digits, adjacent
groups separated by `:` or `-`: seventeen characters, a separator at
positions 2, 5, 8, 11, 14 and a hex digit everywhere else. -/
def valid_address (s : String) : Bool :=
  let cs := s.data
  cs.length = 17 &&
    (List.range 17).all fun i =>
      if i % 3 = 2 then cs.getD i ' ' = ':' || cs.getD i ' ' = '-'
      else isHexDigit (cs.getD i ' ')

/-- Modelled from the spec: `valid_mac` (from `utils.py`, not among the
given sources) — same hardware-address format contract as
`valid_address`. -/
def valid_mac (s : String) : Bool := valid_address s

/-- A discovered sensor (`QBluetoothDeviceInfo`); we track the one
attribute the handler uses. -/
structure Sensor where
  address : String
  deriving DecidableEq, Repr

/-- Modelled from the spec: `get_sensor_address` (from
`openhrv/utils.py`, not among the given sources) — returns the device's
hardware address. -/
def get_sensor_address (s : Sensor) : String := s.address

/-- Python `str.split(",")` on the character list: the text is cut at
every comma; adjacent commas or a leading/trailing comma give empty
parts, and the empty text gives one empty part, exactly as in Python. -/
def splitOnComma : List Char → List (List Char)
  | [] => [[]]
  | c :: rest =>
    let r := splitOnComma rest
    if c = ',' then [] :: r
    else (c :: r.headD []) :: r.tail

/-- Python `str.strip()`: drop whitespace from both ends. -/
def stripChars (l : List Char) : List Char :=
  ((l.dropWhile Char.isWhitespace).reverse.dropWhile Char.isWhitespace).reverse

/-- Extraction `self.address_menu.currentText().split(",")[1].strip()`: Python
`split(",")` never raises, but indexing `[1]` raises `IndexError` when
the text holds no comma. -/
def extract_address (text : String) : Except PyExc String :=
  match (splitOnComma text.data).get? 1 with
  | none => .error .indexError
  | some part => .ok (String.mk (stripChars part))

/-- What one run of the PySide6 `connect_sensor` handler does. -/
inductive ConnectOutcome where
  /-- Empty menu text: the handler returns before anything else. -/
  | silentNoop
  /-- An uncaught Python exception escapes the handler. -/
  | pyError (e : PyExc)
  /-- Malformed address: the handler prints the message and returns. -/
  | invalidAddress (printed : String)
  /-- The call `self.sensor.connect_client(*sensor)` is made with the matching
  devices. -/
  | connectAttempt (matched : List Sensor)
  deriving DecidableEq, Repr

/-- The handler `View.connect_sensor` of `openhrv/view.py`, as a function of the
address menu's current text and the model's sensor list. -/
def connect_sensor (menuText : String) (sensors : List Sensor) : ConnectOutcome :=
  if menuText = "" then .silentNoop
  else
    match extract_address menuText with
    | .error e => .pyError e
    | .ok address =>
      if ¬ valid_address address then
        .invalidAddress ("Invalid sensor address: " ++ address ++ ".")
      else
        .connectAttempt (sensors.filter fun s => get_sensor_address s == address)

/-- What one run of the PySide2 `connect_sensor` handler does. -/
inductive ConnectOutcomeV1 where
  /-- Malformed address: prints `Invalid MAC.` and returns. -/
  | invalidMac
  /-- The coroutine `reconnect_internal(mac)` is scheduled on the sensor loop. -/
  | reconnect (mac : String)
  deriving DecidableEq, Repr

/-- The handler `View.connect_sensor` of `view.py` (PySide2 variant), as a function
of the MAC menu's current text. -/
def connect_sensor_v1 (mac : String) : ConnectOutcomeV1 :=
  if ¬ valid_mac mac then .invalidMac else .reconnect mac

/-! ## Sensor disconnection (`openhrv/view.py` lines 286-287)

```python
def disconnect_sensor(self):
    self.sensor.disconnect_client()
```
-/

/-- The Sample Source handle: at most one outstanding connection
(`sensor.py` is not among the given sources, so we track the one piece
of state the disconnect contract concerns). -/
structure SensorClient where
  connection : Option String
  deriving DecidableEq, Repr

/-- Modelled from the spec: `SensorClient.disconnect_client` (from
`openhrv/sensor.py`, not among the given sources) — "tears down the
active connection if any; idempotent — calling it while already
disconnected is a no-op, not an error".  Returns the new client state
and the status messages emitted. -/
def SensorClient.disconnect_client (c : SensorClient) : SensorClient × List String :=
  match c.connection with
  | none => (c, [])
  | some _ => ({ c with connection := none }, ["Disconnecting sensor."])

/-- The handler `View.disconnect_sensor` delegates to the client's
`disconnect_client`. -/
def disconnect_sensor (c : SensorClient) : SensorClient × List String :=
  c.disconnect_client

end OpenHRV

/-- Claim C10: invoking the connect action while the address menu's current
text is empty is a silent no-op: the handler returns before any address
validation, status message, or connection attempt. -/
theorem connect_sensor_empty_text_silent_noop (sensors : List Sensor) :
    connect_sensor ("") sensors = .silentNoop := rfl

/-- Claim C5: in both variants of the handler, the identifier is validated
first, and a malformed hardware address is rejected with an explicit
message, with no connection attempt made. -/
theorem connect_sensor_rejects_malformed (text addr : String)
    (sensors : List Sensor)
    (hne : text ≠ "") (hex : extract_address text = .ok addr)
    (hbad : valid_address addr = false) :
    connect_sensor text sensors =
      .invalidAddress ("Invalid sensor address: " ++ addr ++ ".") ∧
    (∀ m, connect_sensor text sensors ≠ .connectAttempt m) ∧
    connect_sensor_v1 addr = .invalidMac := by
  have h1 : connect_sensor text sensors =
      .invalidAddress ("Invalid sensor address: " ++ addr ++ ".") := by
    simp [connect_sensor, hne, hex, hbad]
  refine ⟨h1, ?_, ?_⟩
  · intro m h
    rw [h1] at h
    cases h
  · simp [connect_sensor_v1, valid_mac, hbad]

/-- Witness for C5: the menu entry `Polar H10,00:11:22:33:44:5G` extracts
the address `00:11:22:33:44:5G`, whose last character is not a hex
digit. -/
theorem connect_sensor_rejects_malformed_witness :
    ("Polar H10,00:11:22:33:44:5G" ≠ "" ∧
     extract_address ("Polar H10,00:11:22:33:44:5G") = .ok ("00:11:22:33:44:5G") ∧
     valid_address ("00:11:22:33:44:5G") = false) ∧
    connect_sensor ("Polar H10,00:11:22:33:44:5G") [] =
      .invalidAddress ("Invalid sensor address: " ++ "00:11:22:33:44:5G" ++ ".") := by
  refine ⟨⟨by decide, by rfl, by decide⟩, ?_⟩
  exact (connect_sensor_rejects_malformed _ _ [] (by decide) (by rfl) (by decide)).1

/-- Claim C8: disconnecting while already disconnected is an idempotent
no-op: the call returns, the client state is unchanged, and no status
message is emitted. -/
theorem disconnect_sensor_idempotent_noop (c : SensorClient)
    (h : c.connection = none) :
    disconnect_sensor c = (c, []) := by
  simp [disconnect_sensor, SensorClient.disconnect_client, h]

/-- Witness for C8: a concrete disconnected client. -/
theorem disconnect_sensor_idempotent_noop_witness :
    (SensorClient.mk none).connection = none ∧
    disconnect_sensor (SensorClient.mk none) = (SensorClient.mk none, []) :=
  ⟨rfl, disconnect_sensor_idempotent_noop (SensorClient.mk none) rfl⟩

namespace OpenHRV

/-! ## Recording start (`openhrv/view.py` lines 256-271)

```python
def get_filepath(self):
    ...
    file_path: str = QFileDialog.getSaveFileName(...)[0]
    if not file_path:  # user cancelled or closed file dialog
        return
    if not valid_path(file_path):
        self.show_status("File path is invalid or exists already.")
        return
    self.signals.start_recording.emit(file_path)
```
-/

/-- The file-system facts `valid_path` consults: which paths exist and
which paths have a valid (existing) parent directory. -/
structure FileSystem where
  pathExists : String → Bool
  parentOk : String → Bool

/-- Modelled from the spec: `valid_path` (from `openhrv/utils.py`, not
among the given sources) — "validity check: target's parent directory
exists and (unless overwrite explicitly requested) the target does not
already exist"; the handler offers no overwrite request, so an existing
target is always invalid. -/
def valid_path (fs : FileSystem) (p : String) : Bool :=
  fs.parentOk p && !fs.pathExists p

/-- What one run of `get_filepath` does.  The handler performs no file
operation itself: its only effects are the status message or the
`start_recording` signal emission. -/
inductive StartOutcome where
  /-- Empty dialog result: user cancelled, handler returns. -/
  | cancelled
  /-- Invalid destination: status shown, recording not started. -/
  | rejected (status : String)
  /-- Signal `start_recording` emitted with the chosen path. -/
  | startRecording (path : String)
  deriving DecidableEq, Repr

/-- The handler `View.get_filepath`, as a function of the file-system state and the
path returned by the save-file dialog. -/
def get_filepath (fs : FileSystem) (file_path : String) : StartOutcome :=
  if file_path = "" then .cancelled
  else if ¬ valid_path fs file_path then
    .rejected ("File path is invalid or exists already.")
  else .startRecording file_path

/-! ## HRV target (`openhrv/view.py` lines 169-173, `view.py` 130-134)

```python
self.hrv_target = QSlider(Qt.Horizontal)
self.hrv_target.setRange(MIN_HRV_TARGET, MAX_HRV_TARGET)
self.hrv_target.setSingleStep(10)
self.hrv_target.valueChanged.connect(self.model.update_hrv_target)
self.hrv_target.setSliderPosition(self.model.hrv_target)
```

The PySide2 variant hard-codes the bounds: `setRange(50, 600)`
(`view.py` line 131).  Setting the target goes through the slider:
`QAbstractSlider` (an external collaborator) bounds every set value into
its range and emits `valueChanged` with the bounded value whenever the
value actually changes; the connected model slot stores it. -/

/-- Constant `MIN_HRV_TARGET` (`openhrv/config.py` is not among the given
sources; the PySide2 variant hard-codes `setRange(50, 600)` and the spec
gives bounds 50-600). -/
def MIN_HRV_TARGET : ℤ := 50

/-- Constant `MAX_HRV_TARGET`, see `MIN_HRV_TARGET`. -/
def MAX_HRV_TARGET : ℤ := 600

/-- The HRV-target slider: its range and current value.  Invariantly
`lo ≤ pos ≤ hi` once set through `setSliderPosition`. -/
structure HrvSlider where
  lo : ℤ
  hi : ℤ
  pos : ℤ
  deriving DecidableEq, Repr

/-- Qt method `QAbstractSlider.setSliderPosition` (external collaborator):
the new value is bounded into the slider's range. -/
def setSliderPosition (s : HrvSlider) (x : ℤ) : HrvSlider :=
  { s with pos := min s.hi (max s.lo x) }

/-- The model state the HRV-target claims concern. -/
structure ModelState where
  hrv_target : ℤ
  deriving DecidableEq, Repr

/-- Modelled from the spec: `Model.update_hrv_target` (from
`openhrv/model.py`, not among the given sources) — stores the value the
slider delivered as the current `hrv_target`. -/
def update_hrv_target (m : ModelState) (x : ℤ) : ModelState :=
  { m with hrv_target := x }

/-- Setting the HRV target to `x` through the UI: the slider bounds the
value into its range, and — when the slider value changed —
`valueChanged` fires and the model slot stores the new value. -/
def set_hrv_target (s : HrvSlider) (m : ModelState) (x : ℤ) :
    HrvSlider × ModelState :=
  let s2 := setSliderPosition s x
  (s2, if s2.pos ≠ s.pos then update_hrv_target m s2.pos else m)

end OpenHRV

/-- Claim C6: if the chosen destination already exists or its parent
directory is invalid, `get_filepath` rejects it with the user-visible
status message, and the recording is not started (so the existing file
is neither opened nor truncated: the handler's only effect on this path
is the status message). -/
theorem get_filepath_rejects_invalid_destination (fs : FileSystem)
    (p : String) (hne : p ≠ "")
    (hbad : fs.pathExists p = true ∨ fs.parentOk p = false) :
    get_filepath fs p = .rejected ("File path is invalid or exists already.") ∧
    ∀ q, get_filepath fs p ≠ .startRecording q := by
  have hv : valid_path fs p = false := by
    rcases hbad with h | h <;> simp [valid_path, h]
  have h1 : get_filepath fs p = .rejected ("File path is invalid or exists already.") := by
    simp [get_filepath, hne, hv]
  exact ⟨h1, fun q h => by rw [h1] at h; cases h⟩

/-- Witness for C6: a file system where every path exists; starting on
`out.csv` is rejected. -/
theorem get_filepath_rejects_invalid_destination_witness :
    ("out.csv" ≠ "" ∧
     FileSystem.pathExists ⟨fun _ => true, fun _ => true⟩ ("out.csv") = true) ∧
    get_filepath ⟨fun _ => true, fun _ => true⟩ ("out.csv") =
      .rejected ("File path is invalid or exists already.") :=
  ⟨⟨by decide, rfl⟩,
   (get_filepath_rejects_invalid_destination ⟨fun _ => true, fun _ => true⟩
     "out.csv" (by decide) (Or.inl rfl)).1⟩

/-- Claim C7: for every integer `x`, including out-of-range values,
setting the HRV target to `x` and then reading the model's `hrv_target`
returns `x` clamped into `[MIN_HRV_TARGET, MAX_HRV_TARGET]`; the
operation is total — out-of-range input is clamped silently on write,
never rejected. -/
theorem set_hrv_target_clamps (s : HrvSlider) (m : ModelState) (x : ℤ)
    (hlo : s.lo = MIN_HRV_TARGET) (hhi : s.hi = MAX_HRV_TARGET)
    (hsync : m.hrv_target = s.pos) :
    (set_hrv_target s m x).2.hrv_target =
      min MAX_HRV_TARGET (max MIN_HRV_TARGET x) := by
  simp only [set_hrv_target, setSliderPosition, hlo, hhi]
  by_cases h : MAX_HRV_TARGET ⊓ (MIN_HRV_TARGET ⊔ x) = s.pos
  · simp [h, hsync]
  · simp [h, update_hrv_target]

/-- Witness for C7: the default slider (range 50-600, position 250, in
sync with the model) set to the out-of-range value 700 reads back 600. -/
theorem set_hrv_target_clamps_witness :
    ((HrvSlider.mk 50 600 250).lo = MIN_HRV_TARGET ∧
     (HrvSlider.mk 50 600 250).hi = MAX_HRV_TARGET ∧
     (ModelState.mk 250).hrv_target = (HrvSlider.mk 50 600 250).pos) ∧
    (set_hrv_target (HrvSlider.mk 50 600 250) (ModelState.mk 250) 700).2.hrv_target
      = 600 :=
  ⟨⟨rfl, rfl, rfl⟩,
   set_hrv_target_clamps (HrvSlider.mk 50 600 250) (ModelState.mk 250) 700
     rfl rfl rfl⟩

namespace OpenHRV

/-! ## IBI buffer eviction (the Shared Telemetry Model)

`openhrv/model.py` is not among the given sources; the comment at
`openhrv/view.py` lines 139-141 only documents what the chart displays.
The buffer discipline itself is therefore modelled from the spec:
"ordered sequence of (timestamp-offset-seconds, IBI-milliseconds),
fixed maximum duration window; older samples evicted as new ones arrive
— a time-bounded ring", with scenario 1 fixing the boundary: feeding a
sample at t=65 with a 60-second window evicts entries with offset < 5,
i.e. an entry is retained iff its offset is at least the latest offset
minus the window. -/

/-- An IBI-buffer entry: (time offset in seconds, IBI in milliseconds). -/
abbrev IbiEntry : Type := ℚ × ℤ

/-- Modelled from the spec: one append to the Model's `ibi_buffer`
(`Model.update_ibis_buffer`, `openhrv/model.py`, not among the given
sources) — the new sample is appended and every entry whose time offset
lies more than `window` seconds before the new sample's offset is
evicted. -/
def ibiStep (window : ℚ) (buf : List IbiEntry) (s : IbiEntry) : List IbiEntry :=
  (buf ++ [s]).filter fun e => decide (s.1 - window ≤ e.1)

/-- The buffer obtained by feeding a whole sequence of samples into an
initially empty buffer. -/
def ibiRun (window : ℚ) (samples : List IbiEntry) : List IbiEntry :=
  samples.foldl (ibiStep window) []

/-- The retention predicate of the claim: an entry is within `window`
of the latest entry's time offset. -/
def inWindow (window : ℚ) (latest : IbiEntry) (e : IbiEntry) : Bool :=
  decide (latest.1 - window ≤ e.1)

/-- Auxiliary: over samples whose time offsets strictly increase, the
fold of `ibiStep` equals one final filter by the last sample's
threshold — eviction at intermediate steps removes exactly the entries
the final, largest threshold would remove anyway. -/
theorem ibiRun_eq_filter (window : ℚ) :
    ∀ (samples : List IbiEntry),
      samples.Pairwise (fun a b => a.1 < b.1) →
      ∀ last, samples.getLast? = some last →
      ibiRun window samples = samples.filter (inWindow window last) := by
  intro samples
  induction samples using List.reverseRecOn with
  | nil => intro _ last h; cases h
  | append_singleton l s ih =>
    intro hp last hlast
    have hs : last = s := by
      rw [List.getLast?_concat] at hlast
      exact (Option.some_injective _ hlast).symm
    rw [hs]
    have hrun : ibiRun window (l ++ [s]) = ibiStep window (ibiRun window l) s := by
      unfold ibiRun
      rw [List.foldl_append]
      rfl
    obtain ⟨hpl, -, hlt⟩ := List.pairwise_append.mp hp
    cases hl : l with
    | nil =>
      subst hl
      rfl
    | cons x xs =>
      rw [← hl]
      have hlne : l ≠ [] := by simp [hl]
      set tl : IbiEntry := l.getLast hlne with htl
      have htl_mem : tl ∈ l := List.getLast_mem hlne
      have hIH : ibiRun window l = l.filter (inWindow window tl) :=
        ih hpl tl (List.getLast?_eq_getLast l hlne)
      have htls : tl.1 < s.1 := hlt tl htl_mem s (by simp)
      have hcongr : l.filter (fun e => inWindow window s e && inWindow window tl e)
          = l.filter (inWindow window s) := by
        refine List.filter_congr fun e _ => ?_
        cases he : inWindow window s e with
        | false => simp
        | true =>
          have h1 : s.1 - window ≤ e.1 := of_decide_eq_true he
          have h2 : inWindow window tl e = true :=
            decide_eq_true (le_trans (by linarith) h1)
          simp [h2]
      calc ibiRun window (l ++ [s])
          = ((l.filter (inWindow window tl)) ++ [s]).filter (inWindow window s) := by
            rw [hrun, hIH]; rfl
        _ = (l.filter (inWindow window tl)).filter (inWindow window s)
              ++ [s].filter (inWindow window s) := by
            rw [List.filter_append]
        _ = l.filter (fun e => inWindow window s e && inWindow window tl e)
              ++ [s].filter (inWindow window s) := by
            rw [List.filter_filter]
        _ = (l ++ [s]).filter (inWindow window s) := by
            rw [hcongr, List.filter_append]

end OpenHRV

/-- Claim C1: for every sequence of IBI-sample appends whose time offsets
strictly increase (offsets are cumulative sums of positive inter-beat
intervals), the resulting `ibi_buffer` retains exactly the fed entries
whose time offset lies within the configured window of the latest
entry's time offset; the retained entries are in (strictly) increasing
time order, so in particular no two retained entries share a time
offset. -/
theorem ibi_buffer_window_invariant (window : ℚ) (samples : List IbiEntry)
    (last : IbiEntry)
    (hinc : samples.Pairwise (fun a b => a.1 < b.1))
    (hlast : samples.getLast? = some last) :
    ibiRun window samples = samples.filter (inWindow window last) ∧
    (∀ e : IbiEntry, e ∈ ibiRun window samples ↔
      e ∈ samples ∧ last.1 - window ≤ e.1) ∧
    (ibiRun window samples).Pairwise (fun a b => a.1 < b.1) := by
  have heq := ibiRun_eq_filter window samples hinc last hlast
  refine ⟨heq, ?_, ?_⟩
  · intro e
    rw [heq, List.mem_filter, inWindow]
    simp
  · rw [heq]
    exact hinc.filter _

/-- Witness for C1, the spec's end-to-end scenario 1: samples 800, 820,
790 ms at offsets 0, 1, 2 s, then a fourth sample at offset 65 s with a
60-second window — the first three entries are evicted and only the new
sample remains. -/
theorem ibi_buffer_window_invariant_witness :
    ([((0 : ℚ), (800 : ℤ)), (1, 820), (2, 790), (65, 850)].Pairwise
        (fun a b => a.1 < b.1) ∧
     [((0 : ℚ), (800 : ℤ)), (1, 820), (2, 790), (65, 850)].getLast?
        = some (65, 850)) ∧
    ibiRun 60 [((0 : ℚ), (800 : ℤ)), (1, 820), (2, 790), (65, 850)] =
      [((65 : ℚ), (850 : ℤ))] := by
  have h := ibi_buffer_window_invariant 60
    [((0 : ℚ), (800 : ℤ)), (1, 820), (2, 790), (65, 850)] (65, 850)
    (by norm_num) (by rfl)
  refine ⟨⟨by norm_num, rfl⟩, ?_⟩
  rw [h.1]
  norm_num [inWindow, List.filter]
